import Mathlib

/-!
Verification of the release-publishing script `.ci/update-release.py`.

The script is straight-line module-level Python: read three environment
variables, split the repository identifier, read a VERSION file, look up
a GitHub release by tag, and upload two binaries as release assets.  We
embed it shallowly as a function from an external `World` (environment,
file system, hosting service) to the ordered trace of observable
external calls together with the final outcome.

Besides the script exactly as written (`runScript`), the file defines
two hypothetical repaired variants, clearly marked as such, following
the intent spelled out in section 9 of the design notes: one with only
the use-before-assignment of `version_file_path` repaired
(`runScriptReadRepaired`), and one with the `bin.name` slip repaired as
well (`runScriptIntended`).
-/

/-- Lines 9–12: the `Binary` dataclass (platform subdirectory and file
base name). -/
structure Binary where
  path : String
  name : String
deriving DecidableEq, Repr

/-- Lines 14–23: the static list of the two binaries to publish. -/
def OUTPUT_FILE_BINARIES : List Binary :=
  [ { path := "darwin-amd64", name := "gardenctl_v2_darwin_amd64" },
    { path := "linux-amd64", name := "gardenctl_v2_linux_amd64" } ]

/-- Line 24: the fixed name of the version marker file. -/
def VERSION_FILE_NAME : String := "VERSION"

/-- Observable external calls made by a run, in order.  An event is
recorded at the moment the corresponding call is made; whether the call
succeeds is determined by the `World`. -/
inductive Event where
  | fileRead (path : String)
  | releaseLookup (owner name tag : String)
  | fileOpen (path : String)
  | upload (assetName contentType path : String)
  | fileClose (path : String)
deriving DecidableEq, Repr

/-- The ways a run can abort.  `nameError` is Python's unbound-name
error, `attributeError` its missing-attribute error, `valueError` the
unpacking error of a 2-target assignment from a list whose length is
not 2. -/
inductive Err where
  | configMissing (var : String)
  | valueError
  | nameError (n : String)
  | attributeError (obj attr : String)
  | ioError (path : String)
  | releaseNotFound (tag : String)
  | uploadError (assetName : String)
deriving DecidableEq, Repr

/-- Final outcome of a run. -/
inductive Outcome where
  | ok : Outcome
  | error : Err → Outcome
deriving DecidableEq, Repr

/-- The external world a run interacts with: the process environment,
the readable text files, which (owner, name, tag) triples have a
release, which paths can be opened for binary reading, and which asset
uploads the hosting service accepts. -/
structure World where
  env : String → Option String
  files : String → Option String
  releases : String → String → String → Bool
  openable : String → Bool
  uploadOk : String → Bool

/-- Python string split for a single-character separator, on the
character list of the string: splitting on the separator char, keeping
empty pieces, with `[[]]` for the empty string (as Python returns a
singleton list holding the empty string). -/
def splitOnChar (sep : Char) : List Char → List (List Char)
  | [] => [[]]
  | x :: xs =>
    if x = sep then
      [] :: splitOnChar sep xs
    else
      match splitOnChar sep xs with
      | [] => [[x]]
      | p :: ps => (x :: p) :: ps

/-- ASCII whitespace, the characters Python's `str.strip()` removes
(non-ASCII Unicode whitespace is not modelled; no input here uses it). -/
def isPySpace (c : Char) : Bool :=
  c = ' ' || c = '\t' || c = '\n' || c = '\r' ||
  c = Char.ofNat 11 || c = Char.ofNat 12

/-- Python `str.strip()`: remove leading and trailing whitespace. -/
def pyStrip (s : String) : String :=
  ⟨((s.data.dropWhile isPySpace).reverse.dropWhile isPySpace).reverse⟩

/-- `pathlib.Path(s).resolve()` is file-system canonicalization.  The
worlds considered here supply canonical absolute paths, on which
`resolve` is the identity; symlink and working-directory resolution are
outside this embedding. -/
def resolvePath (s : String) : String := s

/-- The `/` operator of `pathlib` for a relative right operand. -/
def pathJoin (a b : String) : String := a ++ "/" ++ b

/-- Modelled from the spec: `util.check_env` (the `util` module is CI
infrastructure, not part of this repository's sources): "read three
named environment variables; each must be present and non-empty, else
fail with a configuration error identifying the missing variable
name". -/
def check_env (w : World) (var : String) : Except Err String :=
  match w.env var with
  | none => .error (.configMissing var)
  | some v => if v = "" then .error (.configMissing var) else .ok v

/-- The configuration a run binds in lines 26–30. -/
structure Config where
  repo_owner : String
  repo_name : String
  repo_dir : String
  output_dir : String
deriving DecidableEq, Repr

/-- Lines 26–30: the three `check_env` calls in order, then line 30,
the 2-target unpacking assignment of the split of
`repo_owner_and_name` on the slash character, which raises ValueError
unless the split yields exactly two parts. -/
def resolveConfig (w : World) : Except Err Config :=
  match check_env w "SOURCE_GITHUB_REPO_OWNER_AND_NAME" with
  | .error e => .error e
  | .ok repo_owner_and_name =>
    match check_env w "MAIN_REPO_DIR" with
    | .error e => .error e
    | .ok repo_dir =>
      match check_env w "BINARY_PATH" with
      | .error e => .error e
      | .ok output_dir =>
        match splitOnChar '/' repo_owner_and_name.data with
        | [o, n] =>
          .ok { repo_owner := ⟨o⟩, repo_name := ⟨n⟩,
                repo_dir := repo_dir, output_dir := output_dir }
        | _ => .error .valueError

/-- The script as written (lines 26–55).  After the environment checks
(lines 26–28) and the split (line 30), line 32 evaluates
`version_file_path.read_text()`; but the name `version_file_path` is
first assigned only at line 47, so module-level execution raises a
NameError at line 32 — before `read_text` is invoked (so no file-read
call is made), before the release lookup of line 43, and before the
upload loop of lines 48–55.  The trace of observable external calls is
therefore empty on every run. -/
def runScript (w : World) : List Event × Outcome :=
  match resolveConfig w with
  | .error e => ([], .error e)
  | .ok _ => ([], .error (.nameError "version_file_path"))

/-- The upload loop of lines 48–55 exactly as written, one iteration
per remaining binary.  Line 49 computes `output_file_path` (no external
call).  The `upload_asset` call of lines 51–55 then evaluates its
keyword arguments left to right: `content_type` is a literal, and the
format string for `name` (line 53) evaluates `bin.name`.  The name
`bin` is not assigned anywhere in the script, so Python resolves it to
the builtin function `bin`, which has no attribute `name`: an
AttributeError is raised in the first iteration, before the `asset`
argument (the `open` call of line 54) is evaluated and before
`upload_asset` itself is called.  No event is emitted. -/
def uploadLoopAsWritten : List Binary → List Event × Outcome
  | [] => ([], .ok)
  | _binary :: _rest => ([], .error (.attributeError "bin" "name"))

/-- Hypothetical variant of the script with only the version-file read
repaired: the assignments of lines 45 and 47 (`repo_path` and
`version_file_path`) are evaluated before the read of line 32, which is
the intent named in section 9 of the design notes ("read the version
file before resolving output paths").  Everything else — in particular
the `bin.name` expression of line 53 — is kept exactly as written. -/
def runScriptReadRepaired (w : World) : List Event × Outcome :=
  match resolveConfig w with
  | .error e => ([], .error e)
  | .ok cfg =>
    let repo_path := resolvePath cfg.repo_dir
    let version_file_path := pathJoin repo_path VERSION_FILE_NAME
    match w.files version_file_path with
    | none => ([.fileRead version_file_path], .error (.ioError version_file_path))
    | some version_file_contents =>
      let pre := [Event.fileRead version_file_path,
                  Event.releaseLookup cfg.repo_owner cfg.repo_name version_file_contents]
      if w.releases cfg.repo_owner cfg.repo_name version_file_contents then
        let res := uploadLoopAsWritten OUTPUT_FILE_BINARIES
        (pre ++ res.1, res.2)
      else
        (pre, .error (.releaseNotFound version_file_contents))

/-- Hypothetical upload loop with the line 53 slip repaired as well:
the asset name is derived from the current loop variable, as section 9
of the design notes states the intent ("use the current loop binary's
descriptor").  The `open` of line 54 runs when the `asset` keyword
argument is evaluated, hence before the `upload_asset` call is made;
a failed `open` aborts the run there.  The script contains no close
call and no guaranteed-release scoping, so no `fileClose` event is
ever emitted. -/
def uploadLoopIntended (w : World) (output_path version_file_contents : String) :
    List Binary → List Event × Outcome
  | [] => ([], .ok)
  | binary :: rest =>
    let output_file_path := pathJoin (pathJoin output_path binary.path) binary.name
    let assetName := binary.name ++ "-" ++ version_file_contents
    if w.openable output_file_path then
      if w.uploadOk assetName then
        let res := uploadLoopIntended w output_path version_file_contents rest
        ([Event.fileOpen output_file_path,
          Event.upload assetName "application/octet-stream" output_file_path] ++ res.1,
         res.2)
      else
        ([Event.fileOpen output_file_path,
          Event.upload assetName "application/octet-stream" output_file_path],
         .error (.uploadError assetName))
    else
      ([Event.fileOpen output_file_path], .error (.ioError output_file_path))

/-- Hypothetical variant of the script with both slips of section 9 of
the design notes repaired: the version file is read before the release
lookup, and the asset name is derived from the current loop binary. -/
def runScriptIntended (w : World) : List Event × Outcome :=
  match resolveConfig w with
  | .error e => ([], .error e)
  | .ok cfg =>
    let repo_path := resolvePath cfg.repo_dir
    let version_file_path := pathJoin repo_path VERSION_FILE_NAME
    match w.files version_file_path with
    | none => ([.fileRead version_file_path], .error (.ioError version_file_path))
    | some version_file_contents =>
      let pre := [Event.fileRead version_file_path,
                  Event.releaseLookup cfg.repo_owner cfg.repo_name version_file_contents]
      if w.releases cfg.repo_owner cfg.repo_name version_file_contents then
        let res := uploadLoopIntended w (resolvePath cfg.output_dir)
                     version_file_contents OUTPUT_FILE_BINARIES
        (pre ++ res.1, res.2)
      else
        (pre, .error (.releaseNotFound version_file_contents))

/-- Environment of the concrete test worlds: the three variables of
lines 26–28 set to a well-formed repository identifier and two
canonical absolute directories. -/
def happyEnv : String → Option String := fun v =>
  if v = "SOURCE_GITHUB_REPO_OWNER_AND_NAME" then some "gardener/gardenctl-v2"
  else if v = "MAIN_REPO_DIR" then some "/repo"
  else if v = "BINARY_PATH" then some "/out"
  else none

/-- A world in which every step the script attempts can succeed: all
variables set, VERSION readable with contents "v2.0.0", a matching
release, both binary files present, uploads accepted. -/
def wHappy : World :=
  { env := happyEnv
    files := fun p => if p = "/repo/VERSION" then some "v2.0.0" else none
    releases := fun o n t =>
      if o = "gardener" ∧ n = "gardenctl-v2" ∧ t = "v2.0.0" then true else false
    openable := fun p =>
      if p = "/out/darwin-amd64/gardenctl_v2_darwin_amd64" ∨
         p = "/out/linux-amd64/gardenctl_v2_linux_amd64" then true else false
    uploadOk := fun _ => true }

/-- Like `wHappy`, but the VERSION file ends in a newline and the
hosting service has a release for every tag. -/
def wNewline : World :=
  { wHappy with
    files := fun p => if p = "/repo/VERSION" then some "v1.2.3\n" else none
    releases := fun _ _ _ => true }

/-- Like `wHappy`, but the repository identifier contains no slash. -/
def wNoSlash : World :=
  { wHappy with
    env := fun v =>
      if v = "SOURCE_GITHUB_REPO_OWNER_AND_NAME" then some "gardener-gardenctl-v2"
      else happyEnv v }

/-- Like `wHappy`, but no file is readable (in particular VERSION is
absent). -/
def wNoVersion : World :=
  { wHappy with files := fun _ => none }

/-- Like `wHappy`, but the hosting service has no release at all. -/
def wNoRelease : World :=
  { wHappy with releases := fun _ _ _ => false }

/-- Like `wHappy`, but the darwin binary file cannot be opened. -/
def wNoDarwin : World :=
  { wHappy with
    openable := fun p =>
      if p = "/out/linux-amd64/gardenctl_v2_linux_amd64" then true else false }

/-- Like `wHappy`, but the linux binary file cannot be opened. -/
def wNoLinux : World :=
  { wHappy with
    openable := fun p =>
      if p = "/out/darwin-amd64/gardenctl_v2_darwin_amd64" then true else false }

/-- Like `wHappy`, but the BINARY_PATH variable is absent. -/
def wNoBinaryPathVar : World :=
  { wHappy with
    env := fun v => if v = "BINARY_PATH" then none else happyEnv v }

/-- Membership of a variable in the environment as C6 words it: the
variable is absent or set to the empty string. -/
def envMissing (w : World) (v : String) : Prop :=
  w.env v = none ∨ w.env v = some ""

/-- C1: the claim states that on a run in which configuration, version
read, release lookup and both file opens succeed, exactly two uploads
are made, in declared order, with asset names derived from the binary
descriptors and content type application/octet-stream.  The script as
written makes no upload call on any run: it aborts with an unbound-name
error at line 32, before the release lookup and the loop.  The intended
variant, with both slips of section 9 of the design notes repaired,
exhibits exactly the claimed behaviour at the same fully successful
input. -/
theorem c1_divergence :
    (runScript wHappy).1 = [] ∧
    (runScript wHappy).2 = .error (.nameError "version_file_path") ∧
    (runScriptIntended wHappy).1 =
      [ .fileRead "/repo/VERSION",
        .releaseLookup "gardener" "gardenctl-v2" "v2.0.0",
        .fileOpen "/out/darwin-amd64/gardenctl_v2_darwin_amd64",
        .upload "gardenctl_v2_darwin_amd64-v2.0.0" "application/octet-stream"
          "/out/darwin-amd64/gardenctl_v2_darwin_amd64",
        .fileOpen "/out/linux-amd64/gardenctl_v2_linux_amd64",
        .upload "gardenctl_v2_linux_amd64-v2.0.0" "application/octet-stream"
          "/out/linux-amd64/gardenctl_v2_linux_amd64" ] ∧
    (runScriptIntended wHappy).2 = .ok :=
  ⟨rfl, rfl, rfl, rfl⟩

/-- Transcription of the property C2 asserts of a run: a release lookup
is performed whose tag is the VERSION file contents with surrounding
whitespace stripped. -/
def lookupUsesTrimmedTag (w : World) (contents : String) : Prop :=
  ∃ o n, Event.releaseLookup o n (pyStrip contents) ∈ (runScript w).1

/-- C2 counterexample: at a world with all three variables set and the
VERSION file readable with contents "v1.2.3" followed by a newline, no
release lookup with the trimmed tag occurs — the script as written
performs no lookup at all; and even in the variant with the
version-file read repaired, the lookup that does occur does not use the
trimmed tag (it passes the raw contents, trailing newline included). -/
theorem c2_counterexample :
    ¬ lookupUsesTrimmedTag wNewline "v1.2.3\n" ∧
    Event.releaseLookup "gardener" "gardenctl-v2" (pyStrip "v1.2.3\n") ∉
      (runScriptReadRepaired wNewline).1 := by
  constructor
  · rintro ⟨o, n, h⟩
    rw [show (runScript wNewline).1 = ([] : List Event) from rfl] at h
    exact List.not_mem_nil _ h
  · decide

/-- C2 amended: for every run with the three variables set (to a
well-formed repository identifier and directories) and the VERSION file
readable, the script as written aborts with an unbound-name error
before any lookup, so no version tag is used at all; in the variant
with the version-file read repaired, the tag passed to the release
lookup is the exact raw contents of the file — untrimmed, so a trailing
newline in the file does appear in the tag. -/
theorem c2_amended (w : World) (s rd od c : String) (o n : List Char)
    (h1 : w.env "SOURCE_GITHUB_REPO_OWNER_AND_NAME" = some s) (hs : s ≠ "")
    (h2 : w.env "MAIN_REPO_DIR" = some rd) (hrd : rd ≠ "")
    (h3 : w.env "BINARY_PATH" = some od) (hod : od ≠ "")
    (hsplit : splitOnChar '/' s.data = [o, n])
    (hf : w.files (pathJoin (resolvePath rd) VERSION_FILE_NAME) = some c) :
    (runScript w).1 = [] ∧
    (runScript w).2 = .error (.nameError "version_file_path") ∧
    (runScriptReadRepaired w).1 =
      [.fileRead (pathJoin (resolvePath rd) VERSION_FILE_NAME),
       .releaseLookup ⟨o⟩ ⟨n⟩ c] := by
  have hcfg : resolveConfig w =
      .ok { repo_owner := ⟨o⟩, repo_name := ⟨n⟩, repo_dir := rd, output_dir := od } := by
    simp [resolveConfig, check_env, h1, h2, h3, hs, hrd, hod, hsplit]
  refine ⟨by simp [runScript, hcfg], by simp [runScript, hcfg], ?_⟩
  cases hr : w.releases (⟨o⟩ : String) (⟨n⟩ : String) c <;>
    simp [runScriptReadRepaired, hcfg, hf, hr, uploadLoopAsWritten, OUTPUT_FILE_BINARIES]

/-- C2 witness for the amended statement, at the fully successful
world. -/
theorem c2_amended_witness :
    (runScript wHappy).1 = [] ∧
    (runScript wHappy).2 = .error (.nameError "version_file_path") ∧
    (runScriptReadRepaired wHappy).1 =
      [.fileRead (pathJoin (resolvePath "/repo") VERSION_FILE_NAME),
       .releaseLookup ⟨"gardener".data⟩ ⟨"gardenctl-v2".data⟩ "v2.0.0"] :=
  c2_amended wHappy "gardener/gardenctl-v2" "/repo" "/out" "v2.0.0"
    "gardener".data "gardenctl-v2".data rfl (by decide) rfl (by decide)
    rfl (by decide) (by decide) rfl

/-- C3 counterexample: the claim quantifies over every run in which the
three variables are merely present, but at a world whose repository
identifier contains no slash the run aborts at line 30 with a
ValueError from the 2-target unpacking — execution never reaches line
32, and the outcome is not an unbound-name error. -/
theorem c3_counterexample :
    (runScript wNoSlash).2 = .error .valueError ∧
    (runScript wNoSlash).2 ≠ .error (.nameError "version_file_path") := by
  exact ⟨rfl, by decide⟩

/-- C3 amended: for every run in which the three variables are present
and non-empty and the repository identifier splits on the slash into
exactly two parts, execution reaches the use of the name
version_file_path at line 32 before its only assignment at line 47, so
the run aborts with an unbound-name error, before the release lookup
and before any upload call (the trace of external calls is empty). -/
theorem c3_amended (w : World) (s rd od : String) (o n : List Char)
    (h1 : w.env "SOURCE_GITHUB_REPO_OWNER_AND_NAME" = some s) (hs : s ≠ "")
    (h2 : w.env "MAIN_REPO_DIR" = some rd) (hrd : rd ≠ "")
    (h3 : w.env "BINARY_PATH" = some od) (hod : od ≠ "")
    (hsplit : splitOnChar '/' s.data = [o, n]) :
    (runScript w).2 = .error (.nameError "version_file_path") ∧
    (runScript w).1 = [] := by
  have hcfg : resolveConfig w =
      .ok { repo_owner := ⟨o⟩, repo_name := ⟨n⟩, repo_dir := rd, output_dir := od } := by
    simp [resolveConfig, check_env, h1, h2, h3, hs, hrd, hod, hsplit]
  exact ⟨by simp [runScript, hcfg], by simp [runScript, hcfg]⟩

/-- C3 witness for the amended statement. -/
theorem c3_amended_witness :
    (runScript wHappy).2 = .error (.nameError "version_file_path") ∧
    (runScript wHappy).1 = [] :=
  c3_amended wHappy "gardener/gardenctl-v2" "/repo" "/out"
    "gardener".data "gardenctl-v2".data rfl (by decide) rfl (by decide)
    rfl (by decide) (by decide)

/-- C4: the claim states each descriptor's file is opened at
outputPath/relativeDirectory/fileBaseName, with fail-fast on a failed
open.  As written the script never opens any file (empty trace, abort
at line 32).  The intended variant shows the claimed behaviour: with
the darwin binary missing the run aborts at its open with no upload at
all, and with only the linux binary missing the darwin upload has
already been made and no later upload occurs. -/
theorem c4_divergence :
    (runScript wHappy).1 = [] ∧
    (runScriptIntended wNoDarwin).1 =
      [ .fileRead "/repo/VERSION",
        .releaseLookup "gardener" "gardenctl-v2" "v2.0.0",
        .fileOpen "/out/darwin-amd64/gardenctl_v2_darwin_amd64" ] ∧
    (runScriptIntended wNoDarwin).2 =
      .error (.ioError "/out/darwin-amd64/gardenctl_v2_darwin_amd64") ∧
    (runScriptIntended wNoLinux).1 =
      [ .fileRead "/repo/VERSION",
        .releaseLookup "gardener" "gardenctl-v2" "v2.0.0",
        .fileOpen "/out/darwin-amd64/gardenctl_v2_darwin_amd64",
        .upload "gardenctl_v2_darwin_amd64-v2.0.0" "application/octet-stream"
          "/out/darwin-amd64/gardenctl_v2_darwin_amd64",
        .fileOpen "/out/linux-amd64/gardenctl_v2_linux_amd64" ] ∧
    (runScriptIntended wNoLinux).2 =
      .error (.ioError "/out/linux-amd64/gardenctl_v2_linux_amd64") :=
  ⟨rfl, rfl, rfl, rfl, rfl⟩

/-- C5: the claim states that when no release matches the tag the run
aborts with a not-found error and no upload occurs.  As written the
release lookup is never reached: the run aborts at line 32 with an
unbound-name error (empty trace).  In the variant with only the
version-file read repaired the claimed behaviour holds at this input:
the lookup is made, the outcome is the not-found error for the tag, and
the trace contains no open and no upload (the script also contains no
release-creation call anywhere). -/
theorem c5_divergence :
    (runScript wNoRelease).1 = [] ∧
    (runScript wNoRelease).2 = .error (.nameError "version_file_path") ∧
    (runScriptReadRepaired wNoRelease).1 =
      [ .fileRead "/repo/VERSION",
        .releaseLookup "gardener" "gardenctl-v2" "v2.0.0" ] ∧
    (runScriptReadRepaired wNoRelease).2 = .error (.releaseNotFound "v2.0.0") :=
  ⟨rfl, rfl, rfl, rfl⟩

/-- C6: if any of the three required variables is absent or empty, the
run fails with a configuration error for a missing variable, and the
trace of external calls is empty — no file read, no release lookup, no
upload was attempted. -/
theorem c6_no_side_effects (w : World)
    (h : envMissing w "SOURCE_GITHUB_REPO_OWNER_AND_NAME" ∨
         envMissing w "MAIN_REPO_DIR" ∨ envMissing w "BINARY_PATH") :
    (∃ v, envMissing w v ∧ (runScript w).2 = .error (.configMissing v)) ∧
    (runScript w).1 = [] := by
  have htrace : (runScript w).1 = [] := by
    cases hc : resolveConfig w <;> simp [runScript, hc]
  refine ⟨?_, htrace⟩
  cases hS : w.env "SOURCE_GITHUB_REPO_OWNER_AND_NAME" with
  | none =>
    exact ⟨"SOURCE_GITHUB_REPO_OWNER_AND_NAME", Or.inl hS,
      by simp [runScript, resolveConfig, check_env, hS]⟩
  | some vs =>
    by_cases hvs : vs = ""
    · refine ⟨"SOURCE_GITHUB_REPO_OWNER_AND_NAME", Or.inr ?_, ?_⟩
      · rw [hS, hvs]
      · simp [runScript, resolveConfig, check_env, hS, hvs]
    · cases hM : w.env "MAIN_REPO_DIR" with
      | none =>
        exact ⟨"MAIN_REPO_DIR", Or.inl hM,
          by simp [runScript, resolveConfig, check_env, hS, hvs, hM]⟩
      | some vm =>
        by_cases hvm : vm = ""
        · refine ⟨"MAIN_REPO_DIR", Or.inr ?_, ?_⟩
          · rw [hM, hvm]
          · simp [runScript, resolveConfig, check_env, hS, hvs, hM, hvm]
        · cases hB : w.env "BINARY_PATH" with
          | none =>
            exact ⟨"BINARY_PATH", Or.inl hB,
              by simp [runScript, resolveConfig, check_env, hS, hvs, hM, hvm, hB]⟩
          | some vb =>
            by_cases hvb : vb = ""
            · refine ⟨"BINARY_PATH", Or.inr ?_, ?_⟩
              · rw [hB, hvb]
              · simp [runScript, resolveConfig, check_env, hS, hvs, hM, hvm, hB, hvb]
            · exfalso
              rcases h with h | h | h <;>
                rcases h with h | h <;>
                  simp [envMissing, hS, hM, hB] at h <;>
                    first
                      | exact hvs h
                      | exact hvm h
                      | exact hvb h

/-- C6 witness: at a world identical to the fully successful one except
that BINARY_PATH is absent. -/
theorem c6_witness :
    (∃ v, envMissing wNoBinaryPathVar v ∧
      (runScript wNoBinaryPathVar).2 = .error (.configMissing v)) ∧
    (runScript wNoBinaryPathVar).1 = [] :=
  c6_no_side_effects wNoBinaryPathVar (Or.inr (Or.inr (Or.inl rfl)))

/-- C7: the claim states that a missing VERSION file makes the run
abort with an I/O error before the release lookup.  As written the run
aborts with an unbound-name error at line 32 without ever attempting to
read the file — the same outcome as on every other run — though indeed
before any lookup and with no upload.  In the variant with only the
version-file read repaired, the claimed behaviour holds at this input:
the failed read aborts the run with an I/O error naming the version
file, before any lookup and with no upload. -/
theorem c7_divergence :
    (runScript wNoVersion).2 = .error (.nameError "version_file_path") ∧
    (runScript wNoVersion).1 = [] ∧
    (runScriptReadRepaired wNoVersion).2 = .error (.ioError "/repo/VERSION") ∧
    (runScriptReadRepaired wNoVersion).1 = [.fileRead "/repo/VERSION"] :=
  ⟨rfl, rfl, rfl, rfl⟩

/-- C8: the claim states the release lookup is performed with the owner
and name obtained by splitting the repository identifier on the slash.
The split of line 30 does yield exactly those two parts, but as written
no release lookup is ever performed — the run aborts at line 32 with an
empty trace.  In the variant with only the version-file read repaired,
the lookup is performed with exactly the split's owner and name. -/
theorem c8_divergence :
    splitOnChar '/' "gardener/gardenctl-v2".data =
      ["gardener".data, "gardenctl-v2".data] ∧
    (runScript wHappy).1 = [] ∧
    (runScriptReadRepaired wHappy).1 =
      [ .fileRead "/repo/VERSION",
        .releaseLookup "gardener" "gardenctl-v2" "v2.0.0" ] :=
  ⟨by decide, rfl, rfl⟩

/-- C9: in the variant with the version-file read repaired (the claim
says "even with the version-file read repaired"), every run that
reaches the first loop iteration — configuration resolved, VERSION
read, release found — aborts with the missing-attribute error from
evaluating the field access on the name bin of line 53 (Python resolves
the name, unassigned in the script, to the builtin of that name, which
has no such attribute), and the trace contains no upload event at all,
so no upload call completes and no asset name derived from a
descriptor is ever used. -/
theorem c9_attr_failure (w : World) (cfg : Config) (c : String)
    (hcfg : resolveConfig w = .ok cfg)
    (hf : w.files (pathJoin (resolvePath cfg.repo_dir) VERSION_FILE_NAME) = some c)
    (hr : w.releases cfg.repo_owner cfg.repo_name c = true) :
    (runScriptReadRepaired w).2 = .error (.attributeError "bin" "name") ∧
    (runScriptReadRepaired w).1 =
      [ .fileRead (pathJoin (resolvePath cfg.repo_dir) VERSION_FILE_NAME),
        .releaseLookup cfg.repo_owner cfg.repo_name c ] ∧
    ∀ nm ct p, Event.upload nm ct p ∉ (runScriptReadRepaired w).1 := by
  have ht : (runScriptReadRepaired w).1 =
      [ Event.fileRead (pathJoin (resolvePath cfg.repo_dir) VERSION_FILE_NAME),
        Event.releaseLookup cfg.repo_owner cfg.repo_name c ] := by
    simp [runScriptReadRepaired, hcfg, hf, hr, uploadLoopAsWritten, OUTPUT_FILE_BINARIES]
  refine ⟨?_, ht, ?_⟩
  · simp [runScriptReadRepaired, hcfg, hf, hr, uploadLoopAsWritten, OUTPUT_FILE_BINARIES]
  · intro nm ct p hmem
    rw [ht] at hmem
    simp at hmem

/-- C9 witness at the fully successful world. -/
theorem c9_witness :
    (runScriptReadRepaired wHappy).2 = .error (.attributeError "bin" "name") ∧
    (runScriptReadRepaired wHappy).1 =
      [ .fileRead "/repo/VERSION",
        .releaseLookup "gardener" "gardenctl-v2" "v2.0.0" ] ∧
    ∀ nm ct p, Event.upload nm ct p ∉ (runScriptReadRepaired wHappy).1 :=
  c9_attr_failure wHappy
    { repo_owner := "gardener", repo_name := "gardenctl-v2",
      repo_dir := "/repo", output_dir := "/out" }
    "v2.0.0" rfl rfl (by decide)

/-- In the intended upload loop no close event ever occurs: the script
passes the opened handle straight to the upload call, with no close
call and no guaranteed-release scoping. -/
lemma uploadLoopIntended_no_close (w : World) (op c : String) (bs : List Binary)
    (p : String) : Event.fileClose p ∉ (uploadLoopIntended w op c bs).1 := by
  induction bs with
  | nil => simp [uploadLoopIntended]
  | cons b rest ih =>
    by_cases ho : w.openable (pathJoin (pathJoin op b.path) b.name) = true
    · by_cases hu : w.uploadOk (b.name ++ "-" ++ c) = true
      · simp [uploadLoopIntended, ho, hu, ih]
      · simp [uploadLoopIntended, ho, hu]
    · simp [uploadLoopIntended, ho]

/-- No run of the fully repaired variant ever emits a close event. -/
lemma runScriptIntended_no_close (w : World) (p : String) :
    Event.fileClose p ∉ (runScriptIntended w).1 := by
  cases hc : resolveConfig w with
  | error e => simp [runScriptIntended, hc]
  | ok cfg =>
    cases hf : w.files (pathJoin (resolvePath cfg.repo_dir) VERSION_FILE_NAME) with
    | none => simp [runScriptIntended, hc, hf]
    | some c =>
      by_cases hr : w.releases cfg.repo_owner cfg.repo_name c = true
      · simp [runScriptIntended, hc, hf, hr, uploadLoopIntended_no_close]
      · simp [runScriptIntended, hc, hf, hr]

/-- C10 counterexample: the claim states each binary file is opened
immediately before its upload call and closed immediately after it.
At the fully successful world the script as written never opens the
darwin binary at all (it makes no external call), and even the fully
repaired intended variant never closes it: the source contains no
close call and no scoping construct. -/
theorem c10_counterexample :
    Event.fileOpen "/out/darwin-amd64/gardenctl_v2_darwin_amd64" ∉
      (runScript wHappy).1 ∧
    Event.fileClose "/out/darwin-amd64/gardenctl_v2_darwin_amd64" ∉
      (runScriptIntended wHappy).1 := by
  decide

/-- C10 amended: as written the script never opens any file (the run
aborts before the loop on every input).  In the fully repaired intended
variant each file open is immediately followed by the corresponding
upload call — visible in the trace of the fully successful world — but
no handle is ever closed by the script, on any input. -/
theorem c10_amended (w : World) (p : String) :
    Event.fileOpen p ∉ (runScript w).1 ∧
    Event.fileClose p ∉ (runScriptIntended w).1 ∧
    (runScriptIntended wHappy).1 =
      [ .fileRead "/repo/VERSION",
        .releaseLookup "gardener" "gardenctl-v2" "v2.0.0",
        .fileOpen "/out/darwin-amd64/gardenctl_v2_darwin_amd64",
        .upload "gardenctl_v2_darwin_amd64-v2.0.0" "application/octet-stream"
          "/out/darwin-amd64/gardenctl_v2_darwin_amd64",
        .fileOpen "/out/linux-amd64/gardenctl_v2_linux_amd64",
        .upload "gardenctl_v2_linux_amd64-v2.0.0" "application/octet-stream"
          "/out/linux-amd64/gardenctl_v2_linux_amd64" ] := by
  refine ⟨?_, runScriptIntended_no_close w p, rfl⟩
  cases hc : resolveConfig w <;> simp [runScript, hc]

/-- C10 witness instantiating the amended statement. -/
theorem c10_amended_witness :
    Event.fileOpen "/elsewhere" ∉ (runScript wHappy).1 ∧
    Event.fileClose "/elsewhere" ∉ (runScriptIntended wHappy).1 ∧
    (runScriptIntended wHappy).1 =
      [ .fileRead "/repo/VERSION",
        .releaseLookup "gardener" "gardenctl-v2" "v2.0.0",
        .fileOpen "/out/darwin-amd64/gardenctl_v2_darwin_amd64",
        .upload "gardenctl_v2_darwin_amd64-v2.0.0" "application/octet-stream"
          "/out/darwin-amd64/gardenctl_v2_darwin_amd64",
        .fileOpen "/out/linux-amd64/gardenctl_v2_linux_amd64",
        .upload "gardenctl_v2_linux_amd64-v2.0.0" "application/octet-stream"
          "/out/linux-amd64/gardenctl_v2_linux_amd64" ] :=
  c10_amended wHappy "/elsewhere"
